import Mathlib

/-!
Shallow embedding of `packages/ra-core/src/auth/useAuthState.ts` (react-admin).

The hook `useAuthState(params, logoutOnFailure, queryOptions)` wraps a
react-query `useQuery` call around `authProvider?.checkAuth(params).then(() => true)`,
runs two `useEffect` blocks (an onSuccess callback effect and an
error-handling effect performing logout/notify), and returns a memoized
state `{ authenticated, isLoading, error }`.

We embed:
  * the JavaScript error values the provider may reject with (a string or
    an `AuthError`-shaped object `{ message: string | false | undefined,
    redirectTo?: string }`), with their JS truthiness;
  * `getErrorMessage` (lines 133-138 of the source);
  * the success-callback effect (lines 73-77) and the error effect
    (lines 79-109) as pure functions computing the lists of calls made to
    `onSuccess`, `onError`, `logout` and `notify`;
  * the query function (lines 63-71) and the query-result lifecycle
    states (pending / settled success / settled failure);
  * the returned state computation (lines 111-120).  The JavaScript
    expression `result.data ?? result.isLoading ? true : authProvider == null`
    parses, by JS operator precedence (`??` binds tighter than `?:`), as
    `(result.data ?? result.isLoading) ? true : (authProvider == null)`,
    and we embed exactly that parse.
-/

namespace UseAuthState

/-- The `message` field of an error object rejected by the auth provider:
`string | false | undefined` (spec data model, matching what the source
inspects: `error.message === false` and the truthiness test `!error.message`). -/
inductive ErrMessage where
  | str (s : String)
  | fls
  | undef
  deriving DecidableEq, Repr

/-- JS truthiness of the `message` field: a string is truthy iff non-empty;
`false` and `undefined` are falsy. -/
def ErrMessage.truthy : ErrMessage → Bool
  | .str s => s ≠ ""
  | .fls => false
  | .undef => false

/-- `AuthError`: the object form of a provider rejection,
`{ message: string | false | undefined, redirectTo?: string }`.
`redirectTo = none` models an absent / `null` / `undefined` field
(the source tests it with `!= null`). -/
structure AuthError where
  message : ErrMessage
  redirectTo : Option String
  deriving DecidableEq, Repr

/-- A JavaScript error value as the source handles it: `getErrorMessage`
distinguishes `typeof error === 'string'` from the object form. -/
inductive JSError where
  | str (s : String)
  | obj (e : AuthError)
  deriving DecidableEq, Repr

/-- JS truthiness of `result.error` (the guard `if (result.error)` at line 80):
`null`/`undefined` and the empty string are falsy, objects are truthy. -/
def errTruthy : Option JSError → Bool
  | none => false
  | some (.str s) => s ≠ ""
  | some (.obj _) => true

/-- `error.message === false` for a JS error value (a string error has no
`message` field, so the strict comparison is false). -/
def JSError.messageIsFalse : JSError → Bool
  | .str _ => false
  | .obj e => e.message = .fls

/-- `error.redirectTo` as read by the source (a string error has no
`redirectTo` field, giving `undefined`). -/
def JSError.redirectTo : JSError → Option String
  | .str _ => none
  | .obj e => e.redirectTo

/-- `getErrorMessage(error, defaultMessage)`, lines 133-138 of the source:
a string error is returned as is; otherwise a falsy `message` field
(`false`, `undefined`, `''`) falls back to the default, else the message
string is returned. -/
def getErrorMessage (error : JSError) (defaultMessage : String) : String :=
  match error with
  | .str s => s
  | .obj e =>
    if e.message.truthy then
      match e.message with
      | .str s => s
      | _ => defaultMessage
    else defaultMessage

/-- Modelled from the spec: `defaultAuthParams.loginUrl` is imported from
`./useAuthProvider`, which is not part of the supplied sources.  The spec
describes the default login URL as `basename + '/' + login segment`
(example: basename `/admin` yields `/admin/login`), so the canonical login
segment is `login`. -/
def defaultLoginSegment : String := "login"

/-- One folding step of path normalization: drop a `/` that immediately
follows a `/`. -/
def collapseStep (acc : List Char) (c : Char) : List Char :=
  match acc.getLast? with
  | some prev => if prev == '/' && c == '/' then acc else acc ++ [c]
  | none => [c]

/-- Modelled from the spec: `removeDoubleSlashes` is imported from
`../routing`, which is not part of the supplied sources.  The spec says the
default login URL is "normalized to collapse duplicate path separators",
so we collapse every run of `/` characters into a single `/`. -/
def removeDoubleSlashes (path : String) : String :=
  String.mk (path.data.foldl collapseStep [])

/-- The calls recorded by one run of the two side-effect blocks. -/
structure Effects where
  onErrorCalls : List JSError
  logoutCalls : List (Unit × String)
  notifyCalls : List (String × String)
  deriving DecidableEq, Repr

/-- The error-handling effect, lines 79-109 of the source.

`hasOnError` models whether `queryOptions.onError` was supplied.  When it
is, the effect returns after calling it.  Otherwise, when `logoutOnFailure`
holds, `logout({}, target)` is called with `target = error.redirectTo`
when that is non-null, else the normalized default login URL; `notify` is
then called with `getErrorMessage(error, 'ra.auth.auth_check_error')` and
`{type: 'error'}`, unless `error.message === false`. -/
def errorEffect (error : Option JSError) (hasOnError : Bool)
    (logoutOnFailure : Bool) (basename : String) : Effects :=
  if errTruthy error then
    match error with
    | some e =>
      if hasOnError then
        { onErrorCalls := [e], logoutCalls := [], notifyCalls := [] }
      else
        let loginUrl := removeDoubleSlashes (basename ++ "/" ++ defaultLoginSegment)
        if logoutOnFailure then
          let target := match e.redirectTo with
            | some r => r
            | none => loginUrl
          let shouldSkipNotify := e.messageIsFalse
          { onErrorCalls := []
            logoutCalls := [((), target)]
            notifyCalls :=
              if shouldSkipNotify then []
              else [(getErrorMessage e "ra.auth.auth_check_error", "error")] }
        else
          { onErrorCalls := [], logoutCalls := [], notifyCalls := [] }
    | none => { onErrorCalls := [], logoutCalls := [], notifyCalls := [] }
  else
    { onErrorCalls := [], logoutCalls := [], notifyCalls := [] }

/-- JS truthiness of `result.data ?? x` for `data : boolean | undefined`. -/
def dataOrElse (data : Option Bool) (other : Bool) : Bool :=
  match data with
  | some b => b
  | none => other

/-- The success-callback effect, lines 73-77 of the source:
`if (result.data && onSuccess) { onSuccess(result.data); }`.
Returns the list of arguments `onSuccess` is called with during one run. -/
def successEffect (data : Option Bool) (hasOnSuccess : Bool) : List Bool :=
  if dataOrElse data false && hasOnSuccess then
    match data with
    | some b => [b]
    | none => []
  else []

/-- Outcome of one `authProvider.checkAuth(params)` call. -/
inductive ProviderOutcome where
  | resolves
  | rejects (e : JSError)
  deriving DecidableEq, Repr

/-- The query function, lines 65-68 of the source:
`authProvider?.checkAuth(params).then(() => true)`.  With no provider the
optional chain short-circuits to `undefined` (`none`); otherwise the
promise resolves to `true` exactly when `checkAuth` resolves, and rejects
with the provider's error otherwise. -/
def queryFn (provider : Option ProviderOutcome) : Option (Except JSError Bool) :=
  match provider with
  | none => none
  | some .resolves => some (.ok true)
  | some (.rejects e) => some (.error e)

/-- The fields of the react-query result that the source reads. -/
structure QueryResult where
  data : Option Bool
  isLoading : Bool
  error : Option JSError
  deriving DecidableEq, Repr

/-- Query result while the provider call is outstanding: no data, no error,
`isLoading = true` (spec §4.1 step 2; react-query initial loading state). -/
def pendingResult : QueryResult :=
  { data := none, isLoading := true, error := none }

/-- Query result once the provider call has resolved: `data = true` (the
query function maps every resolution to `true`), not loading, no error. -/
def successResult : QueryResult :=
  { data := some true, isLoading := false, error := none }

/-- Query result once the provider call has rejected with `e`: no data,
not loading, `error = e` (react-query exposes the rejection unchanged,
and `retry: false` makes the failure final). -/
def failureResult (e : JSError) : QueryResult :=
  { data := none, isLoading := false, error := some e }

/-- The state returned by the hook. -/
structure State where
  authenticated : Bool
  isLoading : Bool
  error : Option JSError
  deriving DecidableEq, Repr

/-- The returned state, lines 111-120 of the source.  The JS expression
`result.data ?? result.isLoading ? true : authProvider == null` parses as
`(result.data ?? result.isLoading) ? true : (authProvider == null)`
because `??` binds tighter than the conditional operator. -/
def deriveState (authProviderPresent : Bool) (r : QueryResult) : State :=
  { authenticated := if dataOrElse r.data r.isLoading then true else !authProviderPresent
    isLoading := r.isLoading
    error := r.error }

/-- `getErrorMessage` on an object error whose message is a string: the
message itself when non-empty, else the supplied default. -/
theorem getErrorMessage_obj_str (s : String) (rt : Option String) (d : String) :
    getErrorMessage (.obj ⟨.str s, rt⟩) d = if s = "" then d else s := by
  by_cases h : s = "" <;> simp [getErrorMessage, ErrMessage.truthy, h]

/-- C1: with an AuthProvider configured, once the provider call has settled
with a failure (rejection), the returned state has `isLoading = false` and
`authenticated = false`. -/
theorem settled_failure_unauthenticated (e : JSError) :
    (deriveState true (failureResult e)).isLoading = false ∧
    (deriveState true (failureResult e)).authenticated = false := by
  exact ⟨rfl, rfl⟩

/-- C2: if no AuthProvider is configured, the returned state has
`authenticated = true`, whatever the query result (pending, succeeded or
failed) is. -/
theorem no_provider_always_authenticated (r : QueryResult) :
    (deriveState false r).authenticated = true := by
  rcases r with ⟨d, l, er⟩
  rcases d with _ | b
  · cases l <;> rfl
  · cases b <;> rfl

/-- C3: while the provider call is outstanding, the returned state has
`authenticated = true` and `isLoading = true`. -/
theorem pending_optimistic :
    (deriveState true pendingResult).authenticated = true ∧
    (deriveState true pendingResult).isLoading = true := by
  exact ⟨rfl, rfl⟩

/-- C4: on failure with `logoutOnFailure` and no `onError`, `logout` is
called once with context `()` and redirect target `error.redirectTo` when
present, else the default login URL `removeDoubleSlashes(basename ++ "/" ++
defaultLoginSegment)`; with basename `/admin` that default is
`/admin/login`. -/
theorem logout_redirect_target (e : AuthError) (basename : String) :
    (errorEffect (some (.obj e)) false true basename).logoutCalls =
      [((), match e.redirectTo with
            | some r => r
            | none => removeDoubleSlashes (basename ++ "/" ++ defaultLoginSegment))] ∧
    removeDoubleSlashes ("/admin" ++ "/" ++ defaultLoginSegment) = "/admin/login" := by
  refine ⟨?_, by decide⟩
  rcases e with ⟨m, rt⟩
  rcases rt with _ | r <;> rfl

/-- C5: on failure with `message === false`, `notify` is never called, for
every combination of `onError` presence and `logoutOnFailure`; `logout` is
still called (exactly once) when `logoutOnFailure` holds and `onError` is
absent. -/
theorem message_false_suppresses_notify (rt : Option String)
    (hasOnError logoutOnFailure : Bool) (basename : String) :
    (errorEffect (some (.obj ⟨.fls, rt⟩)) hasOnError logoutOnFailure
        basename).notifyCalls = [] ∧
    (errorEffect (some (.obj ⟨.fls, rt⟩)) false true basename).logoutCalls.length
      = 1 := by
  constructor
  · cases hasOnError <;> cases logoutOnFailure <;> cases rt <;> rfl
  · cases rt <;> rfl

/-- C6: on failure with `onError` supplied, `onError` is called with the
error and neither `logout` nor `notify` is called, whatever
`logoutOnFailure` is. -/
theorem on_error_takes_over (e : AuthError) (logoutOnFailure : Bool)
    (basename : String) :
    errorEffect (some (.obj e)) true logoutOnFailure basename =
      { onErrorCalls := [.obj e], logoutCalls := [], notifyCalls := [] } := by
  rfl

/-- C7: when the resolver notifies (`logoutOnFailure`, no `onError`, message
not `false`), the notification message is the error message when it is a
non-empty string, else the default `ra.auth.auth_check_error`, and the
options are of type `error`. -/
theorem notify_message_selection (s : String) (rt₁ rt₂ : Option String)
    (basename : String) :
    (errorEffect (some (.obj ⟨.str s, rt₁⟩)) false true basename).notifyCalls =
      [((if s = "" then "ra.auth.auth_check_error" else s), "error")] ∧
    (errorEffect (some (.obj ⟨.undef, rt₂⟩)) false true basename).notifyCalls =
      [("ra.auth.auth_check_error", "error")] := by
  constructor
  · have h1 : (errorEffect (some (.obj ⟨.str s, rt₁⟩)) false true
        basename).notifyCalls =
        [(getErrorMessage (.obj ⟨.str s, rt₁⟩) "ra.auth.auth_check_error",
          "error")] := rfl
    rw [h1, getErrorMessage_obj_str]
  · rfl

/-- C8: once the provider call has succeeded, the returned state has
`isLoading = false` and `authenticated = true`, and a supplied `onSuccess`
is called exactly once, with the success payload. -/
theorem success_state_and_callback :
    deriveState true successResult =
      { authenticated := true, isLoading := false, error := none } ∧
    successEffect successResult.data true = [true] := by
  exact ⟨rfl, rfl⟩

/-- C9: on failure with no `onError` and `logoutOnFailure = false`, the
resolver performs no side effect (no `onError`, `logout`, `notify` or
`onSuccess` call) and the returned state exposes the error unchanged. -/
theorem failure_frame_no_side_effects (e : AuthError) (basename : String) :
    errorEffect (some (.obj e)) false false basename =
      { onErrorCalls := [], logoutCalls := [], notifyCalls := [] } ∧
    (deriveState true (failureResult (.obj e))).error = some (.obj e) ∧
    successEffect (failureResult (.obj e)).data true = [] := by
  exact ⟨rfl, rfl, rfl⟩

/-- C10: the query function maps every provider resolution to `true`, and
every argument `onSuccess` is ever called with is `true`. -/
theorem on_success_payload_always_true (p : Option ProviderOutcome)
    (data : Option Bool) (hasOnSuccess : Bool) :
    (match queryFn p with
     | some (.ok b) => b = true
     | _ => True) ∧
    (successEffect data hasOnSuccess).all (fun b => b) = true := by
  constructor
  · rcases p with _ | o
    · trivial
    · cases o <;> trivial
  · rcases data with _ | b
    · cases hasOnSuccess <;> rfl
    · cases b <;> cases hasOnSuccess <;> rfl

end UseAuthState
